import Mathlib

/-!
Verification development for the StompBrokerJS broker core
(src/stompServer.js). The definitions below are a shallow embedding of the
functions of that file: JS objects used as string maps become ordered
association lists, the mutable registry and socket fields are threaded as
explicit state, and code living outside the sources (lib/stomp-utils,
lib/bytes, lib/stomp) is modelled from the specification where a claim needs
it, as marked on each such definition.
-/

namespace StompBroker

/-- Header map as kept on a JS frame object: insertion-ordered key/value
pairs, one entry per key. -/
abbrev Headers := List (String × String)

/-- JS property write `headers[k] = v`: overwrite the value of the first
entry with key k, or append a new entry when the key is absent. -/
def setHeader : Headers → String → String → Headers
  | [], k, v => [(k, v)]
  | (k0, v0) :: rest, k, v =>
    if k0 == k then (k0, v) :: rest else (k0, v0) :: setHeader rest k v

/-- JS property read `headers[k]`; none models undefined. -/
def getHeader : Headers → String → Option String
  | [], _ => none
  | (k0, v0) :: rest, k => if k0 == k then some v0 else getHeader rest k

/-- Loop `for (var key in src) dst[key] = src[key]` as in
src/stompServer.js lines 194-198: copy every entry of src over dst. -/
def overlayHeaders (dst src : Headers) : Headers :=
  src.foldl (fun acc kv => setHeader acc kv.1 kv.2) dst

/-- Frame object as the server holds it; the body is modelled as an
optional string (Buffer bodies are out of scope of the claims). -/
structure Frame where
  command : String
  headers : Headers
  body : Option String
deriving Repr, DecidableEq

/-- Registry entry pushed by onSubscribe (src lines 229-241) and by the
facade subscribe (src lines 305-324). hasSocket models
`sub.socket !== undefined`, which selects frame write versus event emit
during fan-out. -/
structure Subscription where
  id : String
  sessionId : String
  topic : String
  tokens : List String
  hasSocket : Bool
deriving Repr, DecidableEq

/-- Splitting of a character list on separators, accumulating the current
segment; structurally recursive so that concrete destinations evaluate. -/
def splitSegments (sep : Char → Bool) : List Char → List Char → List String
  | [], acc => [String.mk acc.reverse]
  | c :: rest, acc =>
    if sep c then String.mk acc.reverse :: splitSegments sep rest []
    else splitSegments sep rest (c :: acc)

/-- Modelled from the spec: stompUtils.tokenizeDestination lives in
lib/stomp-utils, which is not among the sources; spec section 4.2 says
tokenization splits the destination on the separators dot and slash. -/
def tokenizeDestination (dest : String) : List String :=
  splitSegments (fun c => c == '.' || c == '/') dest.data []

/-- Function _checkSubMatchDest (src lines 492-505), taken on the already
tokenized subscription pattern and destination. The JS loop walks the
destination tokens by index: an exhausted pattern (undefined token) or a
mismatching non-wildcard token refuses, a pattern token "**" accepts the
whole remaining destination, otherwise matching continues; a loop that
runs out of destination tokens leaves match = true. -/
def checkSubMatchDest : List String → List String → Bool
  | _, [] => true
  | [], _ :: _ => false
  | s :: ss, d :: ds =>
    if s == "**" then true
    else if s == d || s == "*" then checkSubMatchDest ss ds
    else false

/-- Function _sendToSubscriptions (src lines 349-367). Entries whose
sessionId equals the publisher sessionId are skipped before any match test;
for a matching entry the shared args.frame object is mutated (subscription
header, MESSAGE command) and then written to the socket or emitted, so the
mutated frame is threaded into the remaining iterations. The result lists
the deliveries in order: the registry entry served and the frame as it
stood when delivered. -/
def sendToSubscriptions (publisherSessionId : String) (dest : String) :
    List Subscription → Frame → List (Subscription × Frame)
  | [], _ => []
  | sub :: rest, frame =>
    if publisherSessionId == sub.sessionId then
      sendToSubscriptions publisherSessionId dest rest frame
    else if checkSubMatchDest sub.tokens (tokenizeDestination dest) then
      let frame1 : Frame :=
        { frame with
          command := "MESSAGE"
          headers := setHeader frame.headers "subscription" sub.id }
      (sub, frame1) :: sendToSubscriptions publisherSessionId dest rest frame1
    else
      sendToSubscriptions publisherSessionId dest rest frame

/-- Function frameSerializer (src lines 405-410): the body is replaced by
its JSON text only when a body is present and content-type is
application/json. The JSON encoder itself is outside the broker, so it is a
parameter; string bodies are never Buffers in this model. -/
def frameSerializer (stringify : String → String) (frame : Frame) : Frame :=
  if frame.body.isSome
      && (getHeader frame.headers "content-type" == some "application/json") then
    { frame with body := frame.body.map stringify }
  else frame

/-- Terminal handler of onSend (src lines 178-215) up to the fan-out call.
It serializes the frame, then (body present) sets content-length on
frame.headers to the body length, and builds the local object `headers`
holding the defaults (fresh message-id, content-type text/plain) overlaid
with frame.headers — a local that line 200 onwards never reads. The result
is the pair (args.frame as handed to _sendToSubscriptions, that dead
local). The throw for non-string bodies (line 189) is unreachable for
string bodies. -/
def onSendFrame (stringify : String → String) (msgId : String) (frame0 : Frame) :
    Frame × Headers :=
  let frame1 := frameSerializer stringify frame0
  let frame2 :=
    match frame1.body with
    | some b =>
      { frame1 with headers := setHeader frame1.headers "content-length" (toString b.length) }
    | none => frame1
  (frame2,
   overlayHeaders [("message-id", msgId), ("content-type", "text/plain")] frame2.headers)

/-- Terminal handler of onSubscribe (src lines 229-241): it unconditionally
pushes the new registry entry; no duplicate test and no frame write occur
on this path. -/
def onSubscribe (subs : List Subscription) (sessionId : String)
    (id dest : String) (hasSocket : Bool) : List Subscription :=
  subs ++ [{ id := id, sessionId := sessionId, topic := dest
             tokens := tokenizeDestination dest, hasSocket := hasSocket }]

/-- Per-socket state the embedded operations touch. heartbeatClock none
models `socket.heartbeatClock === undefined` (no armed timer);
heartbeatTime is the last-received timestamp in ms. -/
structure Socket where
  sessionId : String
  heartbeatClock : Option Nat
  heartbeatTime : Nat
deriving Repr, DecidableEq

/-- Function heartbeatOff (src lines 474-479): clear and delete the clock
when one is armed, otherwise do nothing. -/
def heartbeatOff (socket : Socket) : Socket :=
  if socket.heartbeatClock.isSome then { socket with heartbeatClock := none }
  else socket

/-- Splice loop of afterConnectionClose (src lines 515-520): remove every
entry whose sessionId equals the given one (the i-- after splice re-checks
the element shifted into position i, so no match is skipped). -/
def removeSessionSubs (sessionId : String) : List Subscription → List Subscription
  | [] => []
  | sub :: rest =>
    if sub.sessionId == sessionId then removeSessionSubs sessionId rest
    else sub :: removeSessionSubs sessionId rest

/-- Function afterConnectionClose (src lines 513-524): drop the sessions
registry entries, then disarm its heartbeat. -/
def afterConnectionClose (subs : List Subscription) (socket : Socket) :
    List Subscription × Socket :=
  (removeSessionSubs socket.sessionId subs, heartbeatOff socket)

/-- One step of the middleware chain trace: the interceptor at a given
registration position, or the terminal handler. -/
inductive ChainStep where
  | interceptor (i : Nat)
  | terminal
deriving Repr, DecidableEq

/-- Closure callNext of withMiddleware (src lines 118-133). The interceptor
at position i is modelled by whether it invokes next; the result is the
executed steps in order together with whether the terminal handler ran
(iterator exhausted). -/
def runChain : List Bool → Nat → List ChainStep × Bool
  | [], _ => ([ChainStep.terminal], true)
  | d :: rest, i =>
    if d then
      (ChainStep.interceptor i :: (runChain rest (i + 1)).1, (runChain rest (i + 1)).2)
    else ([ChainStep.interceptor i], false)

/-- Broker-visible session state threaded through a command: the frames the
broker has written to the client and whether the session is open. -/
structure PipelineState where
  sentFrames : List Frame
  sessionOpen : Bool
deriving Repr, DecidableEq

/-- Middleware wrapper withMiddleware acting on the session state: the
wrapper itself writes no frame and never closes the socket; only the
terminal handler (a parameter) acts on the state, and only when the chain
reaches it. -/
def runChainState : List Bool → (PipelineState → PipelineState) → PipelineState →
    PipelineState × Bool
  | [], finalHandler, st => (finalHandler st, true)
  | d :: rest, finalHandler, st =>
    if d then runChainState rest finalHandler st else (st, false)

/-- Modelled from the spec: BYTES.LF of lib/bytes (not among the sources)
is the single line-feed byte 0x0A. -/
def LF : String := "\n"

/-- Modelled from the spec: the commands for which the FrameHandler of
lib/stomp (not among the sources) owns a handler, per spec section 6. -/
def supportedCommands : List String :=
  ["CONNECT", "STOMP", "SEND", "SUBSCRIBE", "UNSUBSCRIBE", "DISCONNECT"]

/-- Result of parseRequest: the bare-LF early return after a beat, a
dispatch to the frame handler of the parsed command, or the string value
returned to the caller (src line 548). -/
inductive RequestOutcome where
  | heartbeatIgnored
  | dispatched (command : String)
  | returnedString (s : String)
deriving Repr, DecidableEq

/-- Frame path of parseRequest (src lines 541-548): parse the payload, look
the command up in the frame handler, dispatch when a handler exists and
otherwise return the string. parseCommand abstracts the command extraction
of stompUtils.parseFrame (lib/stomp-utils, not among the sources). -/
def dispatchFrame (parseCommand : String → String) (socket : Socket) (data : String) :
    Socket × RequestOutcome :=
  let cmd := parseCommand data
  if supportedCommands.contains cmd then (socket, RequestOutcome.dispatched cmd)
  else (socket, RequestOutcome.returnedString "Command not found")

/-- Function parseRequest (src lines 527-549). Only when a heartbeat clock
is armed does it touch heartbeatTime and test the payload against LF; in
every other case the payload goes to the frame parser. Its only effects are
the heartbeatTime write and the returned value: no frame is written to the
socket anywhere in its body. -/
def parseRequest (parseCommand : String → String) (now : Nat)
    (socket : Socket) (data : String) : Socket × RequestOutcome :=
  if socket.heartbeatClock.isSome then
    let socket1 := { socket with heartbeatTime := now }
    if data == LF then (socket1, RequestOutcome.heartbeatIgnored)
    else dispatchFrame parseCommand socket1 data
  else
    dispatchFrame parseCommand socket data

/-- JS String.prototype.toLowerCase, modelled character-wise (the broker
only lowercases its ASCII command names). -/
def jsToLower (s : String) : String := String.mk (s.data.map Char.toLower)

/-- Middleware table `this.middleware`: command name to registered handler
list; handlers are modelled by identity tokens (JS compares them with
indexOf, i.e. by identity). An absent key models undefined. -/
abbrev MiddlewareTable := List (String × List Nat)

/-- JS property read `this.middleware[cmd]`. -/
def mwLookup : MiddlewareTable → String → Option (List Nat)
  | [], _ => none
  | (k, hs) :: rest, key => if k == key then some hs else mwLookup rest key

/-- JS property write `this.middleware[cmd] = hs` on the table. -/
def mwSet : MiddlewareTable → String → List Nat → MiddlewareTable
  | [], key, hs => [(key, hs)]
  | (k, h0) :: rest, key, hs =>
    if k == key then (k, hs) :: rest else (k, h0) :: mwSet rest key hs

/-- Effect of handlers.indexOf(handler) followed by splice(idx, 1): drop
the first occurrence, or leave the list unchanged when idx is -1. -/
def removeFirstOcc : List Nat → Nat → List Nat
  | [], _ => []
  | x :: rest, h => if x == h then rest else x :: removeFirstOcc rest h

/-- Function removeMiddleware (src lines 109-115). When the lowercased
command has no entry, `handlers` is undefined and `handlers.indexOf(...)`
throws a TypeError: none models that thrown error. Otherwise the first
occurrence of the handler is spliced out of the entry in place. -/
def removeMiddleware (mw : MiddlewareTable) (command : String) (handler : Nat) :
    Option MiddlewareTable :=
  match mwLookup mw (jsToLower command) with
  | none => none
  | some hs => some (mwSet mw (jsToLower command) (removeFirstOcc hs handler))

/-- Per-token acceptance used to phrase the wildcard claims: a pattern
token accepts a destination token when they are equal or the pattern token
is one of the wildcards. -/
def tokMatches (s d : String) : Prop := s = d ∨ s = "*" ∨ s = "**"

/-! ## Helper lemmas -/

theorem removeSessionSubs_ne (sessionId : String) (l : List Subscription) :
    ∀ s ∈ removeSessionSubs sessionId l, s.sessionId ≠ sessionId := by
  induction l with
  | nil => simp [removeSessionSubs]
  | cons sub rest ih =>
    rw [removeSessionSubs]
    by_cases h : sub.sessionId = sessionId
    · simpa [h] using ih
    · intro s hs
      rcases List.mem_cons.mp (by simpa [h] using hs) with h1 | h1
      · subst h1; exact h
      · exact ih s h1

theorem removeSessionSubs_of_clean (sessionId : String) (l : List Subscription)
    (h : ∀ s ∈ l, s.sessionId ≠ sessionId) : removeSessionSubs sessionId l = l := by
  induction l with
  | nil => rfl
  | cons sub rest ih =>
    have h1 : sub.sessionId ≠ sessionId := h sub (List.mem_cons_self _ _)
    have h2 : ∀ s ∈ rest, s.sessionId ≠ sessionId :=
      fun s hs => h s (List.mem_cons_of_mem _ hs)
    simp [removeSessionSubs, h1, ih h2]

theorem heartbeatOff_clock (socket : Socket) :
    (heartbeatOff socket).heartbeatClock = none := by
  unfold heartbeatOff
  cases h : socket.heartbeatClock <;> simp [h]

theorem heartbeatOff_sessionId (socket : Socket) :
    (heartbeatOff socket).sessionId = socket.sessionId := by
  unfold heartbeatOff; split <;> rfl

theorem heartbeatOff_idem (socket : Socket) :
    heartbeatOff (heartbeatOff socket) = heartbeatOff socket := by
  have h := heartbeatOff_clock socket
  generalize hs : heartbeatOff socket = s at h ⊢
  unfold heartbeatOff
  rw [h]
  simp

theorem runChain_all_true (ds : List Bool) (i : Nat) (h : ∀ d ∈ ds, d = true) :
    runChain ds i
      = ((List.range' i ds.length).map ChainStep.interceptor ++ [ChainStep.terminal], true) := by
  induction ds generalizing i with
  | nil => simp [runChain]
  | cons d rest ih =>
    have hd : d = true := h d (List.mem_cons_self _ _)
    subst hd
    have hrest : ∀ x ∈ rest, x = true := fun x hx => h x (List.mem_cons_of_mem _ hx)
    simp [runChain, ih _ hrest, List.range'_succ]

theorem runChain_abort (ds : List Bool) (i j : Nat)
    (hj : ds[j]? = some false) (hk : ∀ k, k < j → ds[k]? = some true) :
    runChain ds i = ((List.range' i (j + 1)).map ChainStep.interceptor, false) := by
  induction ds generalizing i j with
  | nil => simp at hj
  | cons d rest ih =>
    cases j with
    | zero =>
      simp at hj
      subst hj
      simp [runChain, List.range'_one]
    | succ j =>
      have hd : d = true := by simpa using hk 0 (Nat.succ_pos _)
      subst hd
      have hj2 : rest[j]? = some false := by simpa using hj
      have hk2 : ∀ k, k < j → rest[k]? = some true :=
        fun k hkj => by simpa using hk (k + 1) (Nat.succ_lt_succ hkj)
      simp [runChain, ih _ _ hj2 hk2, List.range'_succ]

theorem runChainState_abort (ds : List Bool) (f : PipelineState → PipelineState)
    (st : PipelineState) (j : Nat)
    (hj : ds[j]? = some false) (hk : ∀ k, k < j → ds[k]? = some true) :
    runChainState ds f st = (st, false) := by
  induction ds generalizing j with
  | nil => simp at hj
  | cons d rest ih =>
    cases j with
    | zero =>
      simp at hj
      subst hj
      simp [runChainState]
    | succ j =>
      have hd : d = true := by simpa using hk 0 (Nat.succ_pos _)
      subst hd
      have hj2 : rest[j]? = some false := by simpa using hj
      have hk2 : ∀ k, k < j → rest[k]? = some true :=
        fun k hkj => by simpa using hk (k + 1) (Nat.succ_lt_succ hkj)
      simp [runChainState, ih _ hj2 hk2]

theorem removeFirstOcc_of_not_mem (hs : List Nat) (h : Nat) (hmem : h ∉ hs) :
    removeFirstOcc hs h = hs := by
  induction hs with
  | nil => rfl
  | cons x rest ih =>
    have hx : ¬(h = x) := fun he => hmem (List.mem_cons.mpr (Or.inl he))
    have hrest : h ∉ rest := fun he => hmem (List.mem_cons.mpr (Or.inr he))
    have hxh : (x == h) = false := by simp [Ne.symm hx]
    simp [removeFirstOcc, hxh, ih hrest]

theorem mwSet_lookup_self (mw : MiddlewareTable) (key : String) (hs : List Nat)
    (h : mwLookup mw key = some hs) : mwSet mw key hs = mw := by
  induction mw with
  | nil => simp [mwLookup] at h
  | cons e rest ih =>
    obtain ⟨k, v⟩ := e
    rw [mwLookup] at h
    rw [mwSet]
    by_cases hk : (k == key) = true
    · rw [if_pos hk] at h
      rw [if_pos hk]
      injection h with h
      rw [h]
    · rw [if_neg hk] at h
      rw [if_neg hk, ih h]

/-! ## Claims -/

/-- Claim C1: for every SEND, no MESSAGE is delivered to any subscription
whose session-id equals the publishing session-id; _sendToSubscriptions
skips every registry entry with sub.sessionId equal to the publisher
sessionId, regardless of destination match. -/
theorem sendToSubscriptions_self_suppression (p dest : String)
    (subs : List Subscription) (frame : Frame) (d : Subscription × Frame)
    (hd : d ∈ sendToSubscriptions p dest subs frame) :
    d.1.sessionId ≠ p := by
  induction subs generalizing frame with
  | nil => simp [sendToSubscriptions] at hd
  | cons sub rest ih =>
    rw [sendToSubscriptions] at hd
    by_cases h1 : (p == sub.sessionId) = true
    · rw [if_pos h1] at hd
      exact ih _ hd
    · rw [if_neg h1] at hd
      by_cases h2 : checkSubMatchDest sub.tokens (tokenizeDestination dest) = true
      · rw [if_pos h2] at hd
        rcases List.mem_cons.mp hd with h | h
        · subst h
          show sub.sessionId ≠ p
          intro heq
          exact h1 (beq_iff_eq.mpr heq.symm)
        · exact ih _ h
      · rw [if_neg h2] at hd
        exact ih _ hd

/-- Witness for claim C1 at a concrete input: one registry entry of another
session, matching destination, publisher "s1". -/
theorem sendToSubscriptions_self_suppression_witness : ("s2" : String) ≠ "s1" :=
  sendToSubscriptions_self_suppression "s1" "/a"
    [{ id := "i1", sessionId := "s2", topic := "/a",
       tokens := tokenizeDestination "/a", hasSocket := true }]
    { command := "SEND", headers := [], body := some "m" }
    ({ id := "i1", sessionId := "s2", topic := "/a",
       tokens := tokenizeDestination "/a", hasSocket := true },
     { command := "MESSAGE", headers := [("subscription", "i1")], body := some "m" })
    (by decide)

/-- Claim C2 (code bug, evaluated at the failing input): for the SEND of
body "hi" with no incoming headers, the frame actually handed to
_sendToSubscriptions carries only content-length — no message-id and no
content-type — while the defaults object the handler built (and then
dropped without ever assigning it to the frame) does carry them. -/
theorem onSend_drops_default_headers :
    (onSendFrame (fun s => s) "msg-1"
        { command := "SEND", headers := [], body := some "hi" }).1.headers
      = [("content-length", "2")]
    ∧ (onSendFrame (fun s => s) "msg-1"
        { command := "SEND", headers := [], body := some "hi" }).2
      = [("message-id", "msg-1"), ("content-type", "text/plain"),
         ("content-length", "2")] := by
  constructor <;> rfl

/-- Counterexample to claim C3: the pattern a.b.c is strictly longer than
the destination a.b and holds no wildcard at all, yet _checkSubMatchDest
accepts it, because its loop only walks the destination tokens. -/
theorem checkSubMatchDest_longer_counterexample :
    checkSubMatchDest ["a", "b", "c"] ["a", "b"] = true := by decide

/-- Claim C3 as amended: the extra tokens of a subscription pattern longer
than the destination are ignored — the match only consults the first
destination-length pattern tokens, so any pattern extending the destination
tokens themselves is accepted rather than refused. -/
theorem checkSubMatchDest_longer_pattern (subTokens destTokens extra : List String) :
    checkSubMatchDest subTokens destTokens
      = checkSubMatchDest (subTokens.take destTokens.length) destTokens
    ∧ checkSubMatchDest (destTokens ++ extra) destTokens = true := by
  constructor
  · induction destTokens generalizing subTokens with
    | nil => cases subTokens <;> rfl
    | cons d ds ih =>
      cases subTokens with
      | nil => rfl
      | cons s ss =>
        simp only [List.length_cons, List.take_succ_cons, checkSubMatchDest]
        rw [ih ss]
  · induction destTokens with
    | nil => cases extra <;> rfl
    | cons d ds ih =>
      by_cases h : d = "**"
      · simp [checkSubMatchDest, h]
      · simp only [List.cons_append, checkSubMatchDest]
        rw [if_neg (by simp [h]), if_pos (by simp)]
        exact ih

/-- Claim C4: a subscription pattern ending in the token "**" accepts every
destination whose leading tokens are accepted token-wise by the pattern
tokens before the "**", whatever the remaining tail — including the empty
tail. -/
theorem checkSubMatchDest_trailing_double_wildcard
    (pre destPre tail : List String) (h : List.Forall₂ tokMatches pre destPre) :
    checkSubMatchDest (pre ++ ["**"]) (destPre ++ tail) = true := by
  induction h with
  | nil =>
    cases tail with
    | nil => rfl
    | cons t ts => simp [checkSubMatchDest]
  | @cons s d pre1 dest1 hsd hrest ih =>
    by_cases hss : s = "**"
    · subst hss
      simp [checkSubMatchDest]
    · have hcond : (s == d || s == "*") = true := by
        rcases hsd with h1 | h1 | h1
        · simp [h1]
        · simp [h1]
        · exact absurd h1 hss
      simp only [List.cons_append, checkSubMatchDest]
      rw [if_neg (by simp [hss]), if_pos hcond]
      exact ih

/-- Witness for claim C4 at concrete inputs: the pattern a.** against the
destination a (empty tail) and against a.x.y (nonempty tail). -/
theorem checkSubMatchDest_trailing_double_wildcard_witness :
    checkSubMatchDest ["a", "**"] ["a"] = true
    ∧ checkSubMatchDest ["a", "**"] ["a", "x", "y"] = true := by
  constructor
  · exact checkSubMatchDest_trailing_double_wildcard ["a"] ["a"] []
      (List.Forall₂.cons (Or.inl rfl) List.Forall₂.nil)
  · exact checkSubMatchDest_trailing_double_wildcard ["a"] ["a"] ["x", "y"]
      (List.Forall₂.cons (Or.inl rfl) List.Forall₂.nil)

/-- Counterexample to claim C5: a SUBSCRIBE whose (session-id, id) pair
equals that of a registry entry is not rejected — after onSubscribe the
registry holds two entries with that pair. -/
theorem onSubscribe_duplicate_not_rejected :
    ((onSubscribe
        [{ id := "id1", sessionId := "sess1", topic := "/t",
           tokens := tokenizeDestination "/t", hasSocket := true }]
        "sess1" "id1" "/t" true).filter
      (fun s => s.sessionId == "sess1" && s.id == "id1")).length = 2 := by decide

/-- Claim C5 as amended: onSubscribe enforces no uniqueness — it appends
the new subscription unconditionally (and writes no ERROR frame on this
path), so the number of registry entries with the given (session-id, id)
pair always grows by one, duplicates included. -/
theorem onSubscribe_appends_duplicate (subs : List Subscription)
    (sessionId id dest : String) (hasSocket : Bool) :
    ((onSubscribe subs sessionId id dest hasSocket).filter
        (fun s => s.sessionId == sessionId && s.id == id)).length
      = (subs.filter (fun s => s.sessionId == sessionId && s.id == id)).length + 1 := by
  simp [onSubscribe, List.filter_append]

/-- Claim C6: after afterConnectionClose no registry entry of the closed
session remains and its heartbeat clock is disarmed, and running
afterConnectionClose a second time on the resulting state changes
nothing. -/
theorem afterConnectionClose_cleans_and_idempotent
    (subs : List Subscription) (socket : Socket) :
    (∀ s ∈ (afterConnectionClose subs socket).1, s.sessionId ≠ socket.sessionId)
    ∧ (afterConnectionClose subs socket).2.heartbeatClock = none
    ∧ afterConnectionClose (afterConnectionClose subs socket).1
        (afterConnectionClose subs socket).2
      = afterConnectionClose subs socket := by
  refine ⟨removeSessionSubs_ne _ _, heartbeatOff_clock _, ?_⟩
  unfold afterConnectionClose
  rw [heartbeatOff_sessionId,
    removeSessionSubs_of_clean _ _ (removeSessionSubs_ne _ _), heartbeatOff_idem]

/-- Claim C7: when every interceptor invokes next, the chain runs in
registration order and ends with the terminal handler; when the interceptor
at position j is the first not to invoke next, exactly the interceptors up
to j run, the terminal handler does not, and the command is dropped with
the session state untouched — no frame written, session still open. -/
theorem withMiddleware_chain_behavior (ds : List Bool)
    (finalHandler : PipelineState → PipelineState) (st : PipelineState) :
    ((∀ d ∈ ds, d = true) →
      runChain ds 0
        = ((List.range ds.length).map ChainStep.interceptor ++ [ChainStep.terminal], true))
    ∧ (∀ j, ds[j]? = some false → (∀ k, k < j → ds[k]? = some true) →
        runChain ds 0 = ((List.range (j + 1)).map ChainStep.interceptor, false)
        ∧ runChainState ds finalHandler st = (st, false)) := by
  refine ⟨fun h => ?_, fun j hj hk => ⟨?_, ?_⟩⟩
  · rw [List.range_eq_range']
    exact runChain_all_true ds 0 h
  · rw [List.range_eq_range']
    exact runChain_abort ds 0 j hj hk
  · exact runChainState_abort ds finalHandler st j hj hk

/-- Witness for claim C7 at concrete inputs: a chain of two passing
interceptors runs fully; a chain aborted at position 1 stops there and
leaves the session state untouched even though the terminal handler would
have closed the session. -/
theorem withMiddleware_chain_behavior_witness :
    runChain [true, true] 0
      = ((List.range 2).map ChainStep.interceptor ++ [ChainStep.terminal], true)
    ∧ runChain [true, false, true] 0
      = ((List.range 2).map ChainStep.interceptor, false)
    ∧ runChainState [true, false, true]
        (fun st => { st with sessionOpen := false })
        { sentFrames := [], sessionOpen := true }
      = ({ sentFrames := [], sessionOpen := true }, false) := by
  have hall := (withMiddleware_chain_behavior [true, true] id
      { sentFrames := [], sessionOpen := true }).1 (by decide)
  have habort := (withMiddleware_chain_behavior [true, false, true]
      (fun st => { st with sessionOpen := false })
      { sentFrames := [], sessionOpen := true }).2 1
      (by decide)
      (by
        intro k hk
        have : k = 0 := by omega
        subst this
        decide)
  exact ⟨hall, habort.1, habort.2⟩

/-- Counterexample to claim C8: with no heartbeat clock armed, a payload of
a single LF is not treated as a heartbeat — it goes down the frame-parse
path and the last-received timestamp stays untouched. -/
theorem parseRequest_lf_unarmed_counterexample :
    (parseRequest (fun _ => "") 100
        { sessionId := "sess1", heartbeatClock := none, heartbeatTime := 0 } LF).2
      ≠ RequestOutcome.heartbeatIgnored
    ∧ (parseRequest (fun _ => "") 100
        { sessionId := "sess1", heartbeatClock := none, heartbeatTime := 0 } LF).1.heartbeatTime
      = 0 := by decide

/-- Claim C8 as amended: only when the heartbeat clock is armed is a
single-LF payload treated as a heartbeat — the timestamp is set to now and
the payload is never handed to the frame parser. -/
theorem parseRequest_lf_heartbeat_when_armed (parseCommand : String → String)
    (now : Nat) (socket : Socket) (data : String)
    (harmed : socket.heartbeatClock.isSome = true) (hdata : data = LF) :
    parseRequest parseCommand now socket data
      = ({ socket with heartbeatTime := now }, RequestOutcome.heartbeatIgnored) := by
  subst hdata
  simp [parseRequest, harmed]

/-- Witness for the amended claim C8 at a concrete input: armed clock, LF
payload. -/
theorem parseRequest_lf_heartbeat_when_armed_witness :
    parseRequest (fun _ => "") 100
        { sessionId := "sess1", heartbeatClock := some 1, heartbeatTime := 0 } LF
      = ({ sessionId := "sess1", heartbeatClock := some 1, heartbeatTime := 100 },
         RequestOutcome.heartbeatIgnored) :=
  parseRequest_lf_heartbeat_when_armed (fun _ => "") 100
    { sessionId := "sess1", heartbeatClock := some 1, heartbeatTime := 0 } LF rfl rfl

/-- Counterexample to claim C9: a frame whose command is unsupported gets
no ERROR frame. The whole effect of parseRequest is captured here — the
socket state is unchanged and the handler merely returns the string to its
caller (which discards it); no frame write occurs in parseRequest. -/
theorem parseRequest_unsupported_counterexample :
    parseRequest (fun _ => "FOO") 0
        { sessionId := "sess1", heartbeatClock := none, heartbeatTime := 0 } "FOO-frame"
      = ({ sessionId := "sess1", heartbeatClock := none, heartbeatTime := 0 },
         RequestOutcome.returnedString "Command not found") := by decide

/-- Claim C9 as amended: for every received payload that is not a bare LF
and whose parsed command has no handler, parseRequest sends nothing and
returns the string Command not found to its caller. -/
theorem parseRequest_unsupported_returns_string (parseCommand : String → String)
    (now : Nat) (socket : Socket) (data : String) (hdata : data ≠ LF)
    (hcmd : parseCommand data ∉ supportedCommands) :
    (parseRequest parseCommand now socket data).2
      = RequestOutcome.returnedString "Command not found" := by
  have hbeq : (data == LF) = false := by simp [hdata]
  unfold parseRequest dispatchFrame
  by_cases h : socket.heartbeatClock.isSome <;> simp [h, hbeq, hcmd]

/-- Witness for the amended claim C9 at a concrete input: an ACK frame,
whose command the broker does not support. -/
theorem parseRequest_unsupported_returns_string_witness :
    (parseRequest (fun _ => "ACK") 0
        { sessionId := "sess1", heartbeatClock := some 1, heartbeatTime := 0 } "ACK-frame").2
      = RequestOutcome.returnedString "Command not found" :=
  parseRequest_unsupported_returns_string (fun _ => "ACK") 0
    { sessionId := "sess1", heartbeatClock := some 1, heartbeatTime := 0 }
    "ACK-frame" (by decide) (by decide)

/-- Claim C10: removeMiddleware on a command that never had middleware
registered fails (the handler list is undefined and indexing it throws,
modelled as none), while removing an unregistered handler from an existing
list is a no-op that leaves the table unchanged. -/
theorem removeMiddleware_throws_or_noop (mw : MiddlewareTable)
    (command : String) (handler : Nat) :
    (mwLookup mw (jsToLower command) = none → removeMiddleware mw command handler = none)
    ∧ (∀ hs, mwLookup mw (jsToLower command) = some hs → handler ∉ hs →
        removeMiddleware mw command handler = some mw) := by
  constructor
  · intro h
    simp [removeMiddleware, h]
  · intro hs hlook hmem
    simp only [removeMiddleware, hlook]
    rw [removeFirstOcc_of_not_mem hs handler hmem, mwSet_lookup_self mw _ hs hlook]

/-- Witness for claim C10 at concrete inputs: no list was ever registered
under connect, so removal throws; handler 9 is absent from the nonempty
send list, so removal leaves the table unchanged. -/
theorem removeMiddleware_throws_or_noop_witness :
    removeMiddleware [("send", [7])] "CONNECT" 7 = none
    ∧ removeMiddleware [("send", [7])] "SEND" 9 = some [("send", [7])] := by
  constructor
  · exact (removeMiddleware_throws_or_noop [("send", [7])] "CONNECT" 7).1 (by decide)
  · exact (removeMiddleware_throws_or_noop [("send", [7])] "SEND" 9).2 [7]
      (by decide) (by decide)

end StompBroker
